import Mathlib

/-!
Verification of the `StreamDispatcher` voice-playback dispatcher
(`src/VoiceInterface/BasicStreamDispatcher.ts`) and the URL-classification
helpers (`src/Util.js`) of the `discord-player` repository.

The TypeScript code is shallowly embedded: each event handler / method is a
Lean function from its observable inputs (the new state delivered by the
event, the dispatcher's fields, and the outcome of any awaited external
operation) to the list of effects it performs on the external voice library,
plus its updated fields.  External-library behaviour that the repository only
calls (destroy throwing on a destroyed connection, the logarithmic volume
curve of the inline volume transformer, the url-validation helpers of
`soundcloud-scraper`/`ytpl`) is modelled from the spec where noted.
-/

/-- Connection status of `@discordjs/voice`'s `VoiceConnectionStatus`. -/
inductive VoiceConnectionStatus where
  | Signalling
  | Connecting
  | Ready
  | Disconnected
  | Destroyed
deriving DecidableEq, Repr, BEq

/-- `@discordjs/voice`'s `VoiceConnectionDisconnectReason`. -/
inductive VoiceConnectionDisconnectReason where
  | WebSocketClose
  | AdapterUnavailable
  | EndpointRemoved
  | Manual
deriving DecidableEq, Repr, BEq

/-- Player status of `@discordjs/voice`'s `AudioPlayerStatus`. -/
inductive AudioPlayerStatus where
  | Idle
  | Buffering
  | Playing
  | Paused
  | AutoPaused
deriving DecidableEq, Repr, BEq

/-- An audio resource; its payload (track metadata, stream) is irrelevant to the
claims, so resources are distinguished by an identifier only. -/
structure AudioResource where
  id : Nat
deriving DecidableEq, Repr

/-- Effects the `voiceConnection` "stateChange" handler performs on the external
voice library, in order. -/
inductive ConnEffect where
  /-- `Util.wait(n)`: suspend for `n` milliseconds. -/
  | waitMs (n : Nat)
  /-- `this.voiceConnection.rejoin()`. -/
  | rejoin
  /-- `this.voiceConnection.destroy()`. -/
  | destroy
  /-- `entersState(this.voiceConnection, Connecting, t)`: suspend up to `t` ms
  waiting for the connection to enter Connecting. -/
  | awaitConnecting (timeoutMs : Nat)
  /-- `entersState(this.voiceConnection, Ready, t)`: suspend up to `t` ms
  waiting for the connection to reach Ready. -/
  | awaitReady (timeoutMs : Nat)
  /-- `this.end()`, i.e. `this.audioPlayer.stop()`. -/
  | endPlayer
deriving DecidableEq, Repr

/-- The new connection state delivered to the "stateChange" handler, together
with the connection's reconnect-attempt counter read by the handler. -/
structure ConnStateInput where
  newStatus : VoiceConnectionStatus
  /-- `newState.reason`, present on Disconnected states. -/
  reason : Option VoiceConnectionDisconnectReason
  /-- `newState.closeCode`, present on websocket-closure disconnects. -/
  closeCode : Option Nat
  /-- `this.voiceConnection.rejoinAttempts`. -/
  rejoinAttempts : Nat

/-- Outcomes of the environment during one handler run: whether the awaited
`entersState` resolved (true) or timed out / rejected (false), and the
connection status observed inside the catch block. -/
structure HandlerEnv where
  entersStateSucceeds : Bool
  statusAtCatch : VoiceConnectionStatus

/-- The `voiceConnection.on("stateChange", ...)` handler installed by the
`StreamDispatcher` constructor (BasicStreamDispatcher.ts lines 61-87).
Input: the delivered new state, the current `readyLock` field, and the
environment outcomes.  Output: the ordered effect list and the value of
`readyLock` when the handler run completes. -/
def voiceStateChangeHandler (inp : ConnStateInput) (readyLock : Bool)
    (env : HandlerEnv) : List ConnEffect × Bool :=
  if inp.newStatus = VoiceConnectionStatus.Disconnected then
    if inp.reason = some VoiceConnectionDisconnectReason.WebSocketClose ∧
        inp.closeCode = some 4014 then
      if env.entersStateSucceeds then
        ([ConnEffect.awaitConnecting 5000], readyLock)
      else
        ([ConnEffect.awaitConnecting 5000, ConnEffect.destroy], readyLock)
    else if inp.rejoinAttempts < 5 then
      ([ConnEffect.waitMs ((inp.rejoinAttempts + 1) * 5000), ConnEffect.rejoin], readyLock)
    else
      ([ConnEffect.destroy], readyLock)
  else if inp.newStatus = VoiceConnectionStatus.Destroyed then
    ([ConnEffect.endPlayer], readyLock)
  else if ¬readyLock ∧ (inp.newStatus = VoiceConnectionStatus.Connecting ∨
      inp.newStatus = VoiceConnectionStatus.Signalling) then
    -- readyLock is set to true, `entersState(..., Ready, 20000)` is awaited;
    -- on rejection the connection is destroyed unless already Destroyed;
    -- the finally block resets readyLock to false.
    if env.entersStateSucceeds then
      ([ConnEffect.awaitReady 20000], false)
    else if env.statusAtCatch ≠ VoiceConnectionStatus.Destroyed then
      ([ConnEffect.awaitReady 20000, ConnEffect.destroy], false)
    else
      ([ConnEffect.awaitReady 20000], false)
  else
    ([], readyLock)

/-- C1: on a Disconnected transition whose reason is not a websocket closure
with close code 4014, the handler suspends for exactly
`(rejoinAttempts + 1) * 5000` ms and then requests a rejoin when the counter is
below 5, and destroys the connection (never requesting a rejoin) when the
counter is 5 or more. -/
theorem C1_backoff_or_destroy (reason : Option VoiceConnectionDisconnectReason)
    (closeCode : Option Nat) (attempts : Nat) (lock : Bool) (env : HandlerEnv)
    (h4014 : ¬(reason = some VoiceConnectionDisconnectReason.WebSocketClose ∧
      closeCode = some 4014)) :
    (attempts < 5 →
      (voiceStateChangeHandler
        ⟨VoiceConnectionStatus.Disconnected, reason, closeCode, attempts⟩ lock env).1 =
        [ConnEffect.waitMs ((attempts + 1) * 5000), ConnEffect.rejoin]) ∧
    (5 ≤ attempts →
      (voiceStateChangeHandler
        ⟨VoiceConnectionStatus.Disconnected, reason, closeCode, attempts⟩ lock env).1 =
        [ConnEffect.destroy] ∧
      ConnEffect.rejoin ∉ (voiceStateChangeHandler
        ⟨VoiceConnectionStatus.Disconnected, reason, closeCode, attempts⟩ lock env).1) := by
  constructor
  · intro hlt
    simp [voiceStateChangeHandler, h4014, hlt]
  · intro hge
    have hnlt : ¬attempts < 5 := not_lt.mpr hge
    simp [voiceStateChangeHandler, h4014, hnlt]

/-- C1 witness: concrete run at counter 3 (backoff of 20000 ms then rejoin) and
at counter 5 (destroy, no rejoin). -/
theorem C1_backoff_or_destroy_witness :
    ((voiceStateChangeHandler
      ⟨VoiceConnectionStatus.Disconnected, some VoiceConnectionDisconnectReason.EndpointRemoved,
        none, 3⟩ false ⟨true, VoiceConnectionStatus.Ready⟩).1 =
      [ConnEffect.waitMs 20000, ConnEffect.rejoin]) ∧
    ((voiceStateChangeHandler
      ⟨VoiceConnectionStatus.Disconnected, some VoiceConnectionDisconnectReason.EndpointRemoved,
        none, 5⟩ false ⟨true, VoiceConnectionStatus.Ready⟩).1 =
      [ConnEffect.destroy]) := by
  constructor
  · exact (C1_backoff_or_destroy (some VoiceConnectionDisconnectReason.EndpointRemoved)
      none 3 false ⟨true, VoiceConnectionStatus.Ready⟩ (by decide)).1 (by decide)
  · exact ((C1_backoff_or_destroy (some VoiceConnectionDisconnectReason.EndpointRemoved)
      none 5 false ⟨true, VoiceConnectionStatus.Ready⟩ (by decide)).2 (by decide)).1

/-- C2: on a Disconnected transition whose reason is a websocket closure with
close code 4014, the handler never takes the counter-based backoff/rejoin path:
it performs no timed suspension and no rejoin, always waits up to 5 seconds for
the connection to re-enter Connecting, and destroys the connection exactly when
that wait fails. -/
theorem C2_ws4014_single_wait (attempts : Nat) (lock : Bool) (env : HandlerEnv) :
    (voiceStateChangeHandler
      ⟨VoiceConnectionStatus.Disconnected, some VoiceConnectionDisconnectReason.WebSocketClose,
        some 4014, attempts⟩ lock env).1 =
      ConnEffect.awaitConnecting 5000 ::
        (if env.entersStateSucceeds then [] else [ConnEffect.destroy]) ∧
    (∀ n, ConnEffect.waitMs n ∉ (voiceStateChangeHandler
      ⟨VoiceConnectionStatus.Disconnected, some VoiceConnectionDisconnectReason.WebSocketClose,
        some 4014, attempts⟩ lock env).1) ∧
    ConnEffect.rejoin ∉ (voiceStateChangeHandler
      ⟨VoiceConnectionStatus.Disconnected, some VoiceConnectionDisconnectReason.WebSocketClose,
        some 4014, attempts⟩ lock env).1 := by
  cases env with
  | mk succ atCatch =>
    cases succ <;> simp [voiceStateChangeHandler]

/-- C4: every run of the Connecting/Signalling branch that acquires the
reentrancy guard (readyLock was false) completes with the guard false again, on
the success, timeout, and thrown exit paths alike; on the timeout/thrown path
the connection is destroyed exactly when its status at that point is not
already Destroyed.  Moreover no completed handler run whatsoever leaves the
guard set unless it was already set on entry. -/
theorem C4_readyLock_released (inp : ConnStateInput) (env : HandlerEnv)
    (hstat : inp.newStatus = VoiceConnectionStatus.Connecting ∨
      inp.newStatus = VoiceConnectionStatus.Signalling) :
    (voiceStateChangeHandler inp false env).2 = false ∧
    (env.entersStateSucceeds = false →
      (ConnEffect.destroy ∈ (voiceStateChangeHandler inp false env).1 ↔
        env.statusAtCatch ≠ VoiceConnectionStatus.Destroyed)) ∧
    (∀ inp' lock' env', (voiceStateChangeHandler inp' lock' env').2 = true →
      lock' = true) := by
  refine ⟨?_, ?_, ?_⟩
  · obtain ⟨succ, atCatch⟩ := env
    rcases hstat with h | h <;> cases succ <;>
      by_cases hd : atCatch = VoiceConnectionStatus.Destroyed <;>
        simp [voiceStateChangeHandler, h, hd]
  · intro hfail
    cases env with
    | mk succ atCatch =>
      simp only at hfail
      subst hfail
      rcases hstat with h | h <;>
        by_cases hd : atCatch = VoiceConnectionStatus.Destroyed <;>
          simp [voiceStateChangeHandler, h, hd]
  · intro inp' lock' env' hset
    by_contra hlock
    have hlock' : lock' = false := by
      cases lock' with
      | false => rfl
      | true => exact absurd rfl hlock
    subst hlock'
    unfold voiceStateChangeHandler at hset
    split at hset
    · split at hset
      · split at hset <;> simp at hset
      · split at hset <;> simp at hset
    · split at hset
      · simp at hset
      · split at hset
        · split at hset
          · simp at hset
          · split at hset <;> simp at hset
        · simp at hset

/-- C4 witness: a Connecting transition with the guard free, where the wait for
Ready times out while the connection is not yet Destroyed: the guard ends
false and the connection is destroyed. -/
theorem C4_readyLock_released_witness :
    (voiceStateChangeHandler ⟨VoiceConnectionStatus.Connecting, none, none, 0⟩ false
      ⟨false, VoiceConnectionStatus.Connecting⟩).2 = false ∧
    ConnEffect.destroy ∈ (voiceStateChangeHandler
      ⟨VoiceConnectionStatus.Connecting, none, none, 0⟩ false
      ⟨false, VoiceConnectionStatus.Connecting⟩).1 := by
  have h := C4_readyLock_released ⟨VoiceConnectionStatus.Connecting, none, none, 0⟩
    ⟨false, VoiceConnectionStatus.Connecting⟩ (Or.inl rfl)
  exact ⟨h.1, (h.2.1 rfl).mpr (by decide)⟩

/-- Events the dispatcher emits to its subscriber. -/
inductive DispatcherEvent where
  | start
  | finish
deriving DecidableEq, Repr

/-- The `paused` getter (BasicStreamDispatcher.ts lines 216-218):
`[AudioPlayerStatus.AutoPaused, AudioPlayerStatus.Paused].includes(status)`. -/
def StreamDispatcher.pausedGetter (s : AudioPlayerStatus) : Bool :=
  [AudioPlayerStatus.AutoPaused, AudioPlayerStatus.Paused].contains s

/-- The `audioPlayer.on("stateChange", ...)` handler installed by the
constructor (BasicStreamDispatcher.ts lines 89-98).  `currentStatus` is the
player status that the `this.paused` getter reads when the handler runs;
`audioResource` is the dispatcher's stored resource reference.  Returns the
resource reference after the run and the emitted events in order. -/
def audioPlayerStateChangeHandler (oldStatus newStatus currentStatus : AudioPlayerStatus)
    (audioResource : Option AudioResource) :
    Option AudioResource × List DispatcherEvent :=
  if newStatus = AudioPlayerStatus.Idle ∧ oldStatus ≠ AudioPlayerStatus.Idle then
    if ¬StreamDispatcher.pausedGetter currentStatus then
      (none, [DispatcherEvent.finish])
    else
      (audioResource, [])
  else if newStatus = AudioPlayerStatus.Playing then
    if ¬StreamDispatcher.pausedGetter currentStatus then
      (audioResource, [DispatcherEvent.start])
    else
      (audioResource, [])
  else
    (audioResource, [])

/-- C6: a player transition into Idle from a non-Idle status while the
dispatcher is not paused clears the stored resource reference and emits exactly
one finish event; the same transition while paused emits no finish event and
leaves the resource reference unchanged. -/
theorem C6_idle_transition_finish (oldStatus currentStatus : AudioPlayerStatus)
    (res : Option AudioResource) (hold : oldStatus ≠ AudioPlayerStatus.Idle) :
    (StreamDispatcher.pausedGetter currentStatus = false →
      audioPlayerStateChangeHandler oldStatus AudioPlayerStatus.Idle currentStatus res =
        (none, [DispatcherEvent.finish]) ∧
      ((audioPlayerStateChangeHandler oldStatus AudioPlayerStatus.Idle currentStatus
        res).2.count DispatcherEvent.finish = 1)) ∧
    (StreamDispatcher.pausedGetter currentStatus = true →
      audioPlayerStateChangeHandler oldStatus AudioPlayerStatus.Idle currentStatus res =
        (res, []) ∧
      DispatcherEvent.finish ∉ (audioPlayerStateChangeHandler oldStatus
        AudioPlayerStatus.Idle currentStatus res).2) := by
  constructor
  · intro hp
    simp [audioPlayerStateChangeHandler, hold, hp]
  · intro hp
    simp [audioPlayerStateChangeHandler, hold, hp]

/-- C6 witness: a Playing-to-Idle transition observed unpaused clears the
resource and emits one finish; observed paused (AutoPaused) it emits nothing
and keeps the resource. -/
theorem C6_idle_transition_finish_witness :
    (audioPlayerStateChangeHandler AudioPlayerStatus.Playing AudioPlayerStatus.Idle
      AudioPlayerStatus.Idle (some ⟨7⟩) = (none, [DispatcherEvent.finish])) ∧
    (audioPlayerStateChangeHandler AudioPlayerStatus.Playing AudioPlayerStatus.Idle
      AudioPlayerStatus.AutoPaused (some ⟨7⟩) = (some ⟨7⟩, [])) := by
  constructor
  · exact ((C6_idle_transition_finish AudioPlayerStatus.Playing AudioPlayerStatus.Idle
      (some ⟨7⟩) (by decide)).1 (by decide)).1
  · exact ((C6_idle_transition_finish AudioPlayerStatus.Playing AudioPlayerStatus.AutoPaused
      (some ⟨7⟩) (by decide)).2 (by decide)).1

/-- Errors `playStream` can raise. -/
inductive PlayError where
  /-- the thrown `Error("Audio resource is not available!")`. -/
  | unavailable
  /-- the rejection propagated from `entersState(..., Ready, 20000)`. -/
  | readyTimeout
deriving DecidableEq, Repr

/-- Message of the error thrown when no resource is available. -/
def unavailableMessage : String := "Audio resource is not available!"

/-- Effects `playStream` performs, in order. -/
inductive PlayEffect where
  /-- `entersState(this.voiceConnection, Ready, t)`. -/
  | awaitReady (timeoutMs : Nat)
  /-- `this.audioPlayer.play(resource)`. -/
  | play (r : AudioResource)
deriving DecidableEq, Repr

/-- Result of one `playStream` run: the stored resource reference on
completion, the effects performed, and the error raised (none on success). -/
structure PlayOutcome where
  audioResource : Option AudioResource
  effects : List PlayEffect
  error : Option PlayError
deriving DecidableEq, Repr

/-- `playStream` (BasicStreamDispatcher.ts lines 171-178).  `arg` is the
explicit argument (none when omitted, in which case the JS default parameter
supplies `this.audioResource`); `current` is the stored `this.audioResource`;
`connStatus` is `this.voiceConnection.state.status`; `readySucceeds` is
whether the awaited `entersState(..., Ready, 20000)` resolves. -/
def StreamDispatcher.playStream (arg current : Option AudioResource)
    (connStatus : VoiceConnectionStatus) (readySucceeds : Bool) : PlayOutcome :=
  match (match arg with | some r => some r | none => current) with
  | none => ⟨current, [], some PlayError.unavailable⟩
  | some resource =>
    let stored := if current.isNone then some resource else current
    if connStatus ≠ VoiceConnectionStatus.Ready then
      if readySucceeds then
        ⟨stored, [PlayEffect.awaitReady 20000, PlayEffect.play resource], none⟩
      else
        ⟨stored, [PlayEffect.awaitReady 20000], some PlayError.readyTimeout⟩
    else
      ⟨stored, [PlayEffect.play resource], none⟩

/-- C5: `playStream` with no argument and no stored resource raises the
unavailable error and never instructs the player to play; with a resource
available and the connection not Ready, it first waits up to 20 seconds for
Ready, plays only after that wait resolves, and propagates the timeout failure
(without playing) when it does not. -/
theorem C5_playStream_unavailable_and_wait :
    (∀ cs rs, StreamDispatcher.playStream none none cs rs =
      ⟨none, [], some PlayError.unavailable⟩) ∧
    (∀ arg current r cs rs,
      (match arg with | some x => some x | none => current) = some r →
      cs ≠ VoiceConnectionStatus.Ready →
      ((StreamDispatcher.playStream arg current cs rs).effects.head? =
        some (PlayEffect.awaitReady 20000)) ∧
      (rs = true → (StreamDispatcher.playStream arg current cs rs).effects =
        [PlayEffect.awaitReady 20000, PlayEffect.play r] ∧
        (StreamDispatcher.playStream arg current cs rs).error = none) ∧
      (rs = false → (StreamDispatcher.playStream arg current cs rs).error =
        some PlayError.readyTimeout ∧
        ∀ r', PlayEffect.play r' ∉ (StreamDispatcher.playStream arg current cs rs).effects)) := by
  constructor
  · intro cs rs
    rfl
  · intro arg current r cs rs hres hcs
    refine ⟨?_, ?_, ?_⟩
    · cases rs <;> simp [StreamDispatcher.playStream, hres, hcs]
    · intro hrs
      subst hrs
      simp [StreamDispatcher.playStream, hres, hcs]
    · intro hrs
      subst hrs
      simp [StreamDispatcher.playStream, hres, hcs]

/-- C5 witness: with no resource anywhere the unavailable error is raised and
nothing is played; with a stored resource and a Disconnected connection whose
Ready wait times out, the error propagates and nothing is played. -/
theorem C5_playStream_unavailable_and_wait_witness :
    (StreamDispatcher.playStream none none VoiceConnectionStatus.Ready true =
      ⟨none, [], some PlayError.unavailable⟩) ∧
    ((StreamDispatcher.playStream none (some ⟨1⟩) VoiceConnectionStatus.Disconnected
      false).error = some PlayError.readyTimeout) := by
  refine ⟨C5_playStream_unavailable_and_wait.1 VoiceConnectionStatus.Ready true, ?_⟩
  exact ((C5_playStream_unavailable_and_wait.2 none (some ⟨1⟩) ⟨1⟩
    VoiceConnectionStatus.Disconnected false rfl (by decide)).2.2 rfl).1

/-- C9: an explicit resource argument never replaces an already-stored current
resource (the stored reference is unchanged while the argument is the one
played); the argument is stored as current exactly when no current resource
exists. -/
theorem C9_explicit_arg_frame (r c : AudioResource)
    (cs : VoiceConnectionStatus) (rs : Bool) :
    (StreamDispatcher.playStream (some r) (some c) cs rs).audioResource = some c ∧
    (StreamDispatcher.playStream (some r) none cs rs).audioResource = some r ∧
    (cs = VoiceConnectionStatus.Ready →
      (StreamDispatcher.playStream (some r) (some c) cs rs).effects =
        [PlayEffect.play r]) := by
  refine ⟨?_, ?_, ?_⟩
  · cases cs <;> cases rs <;> rfl
  · cases cs <;> cases rs <;> rfl
  · intro h
    subst h
    rfl

/-- C9 witness: playing resource 2 while resource 1 is stored, over a Ready
connection, keeps resource 1 stored and plays resource 2. -/
theorem C9_explicit_arg_frame_witness :
    (StreamDispatcher.playStream (some ⟨2⟩) (some ⟨1⟩) VoiceConnectionStatus.Ready
      true).audioResource = some ⟨1⟩ ∧
    (StreamDispatcher.playStream (some ⟨2⟩) (some ⟨1⟩) VoiceConnectionStatus.Ready
      true).effects = [PlayEffect.play ⟨2⟩] := by
  have h := C9_explicit_arg_frame ⟨2⟩ ⟨1⟩ VoiceConnectionStatus.Ready true
  exact ⟨h.1, h.2.2 rfl⟩

/-- Modelled from the spec: the external voice connection's `destroy()` raises
when the connection has already been destroyed (the spec's "suppressing any
error from an already-destroyed connection"); otherwise it moves the connection
to Destroyed.  The method itself belongs to `@discordjs/voice`, not to this
repository. -/
def VoiceConnection.destroyConn (st : VoiceConnectionStatus) :
    Except String VoiceConnectionStatus :=
  if st = VoiceConnectionStatus.Destroyed then
    Except.error "Cannot destroy VoiceConnection - it has already been destroyed"
  else
    Except.ok VoiceConnectionStatus.Destroyed

/-- `disconnect` (BasicStreamDispatcher.ts lines 133-137): calls
`this.voiceConnection.destroy()` inside try/catch with an empty catch block.
Returns the connection status afterwards and the error propagated to the
caller (always none, by the catch). -/
def StreamDispatcher.disconnect (st : VoiceConnectionStatus) :
    VoiceConnectionStatus × Option String :=
  match VoiceConnection.destroyConn st with
  | Except.ok s => (s, none)
  | Except.error _ => (st, none)

/-- C7: `disconnect` never raises to the caller from any connection status; in
particular after a first call has left the connection Destroyed, the
underlying `destroy()` of a second call does raise, and `disconnect` discards
that error too. -/
theorem C7_disconnect_idempotent (st : VoiceConnectionStatus) :
    (StreamDispatcher.disconnect st).2 = none ∧
    (StreamDispatcher.disconnect st).1 = VoiceConnectionStatus.Destroyed ∧
    (∃ msg, VoiceConnection.destroyConn (StreamDispatcher.disconnect st).1 =
      Except.error msg) ∧
    (StreamDispatcher.disconnect (StreamDispatcher.disconnect st).1).2 = none := by
  cases st <;>
    exact ⟨rfl, rfl,
      ⟨"Cannot destroy VoiceConnection - it has already been destroyed", rfl⟩, rfl⟩

/-- A JavaScript number, as far as `setVolume`'s guard can distinguish:
NaN, the two infinities, or a finite value. -/
inductive JSNum where
  | nan
  | posInf
  | negInf
  | finite (q : ℚ)
deriving DecidableEq, Repr

/-- `isNaN(value)` for a number value. -/
def JSNum.isNaN : JSNum → Bool
  | JSNum.nan => true
  | _ => false

/-- IEEE-754 `<` on JavaScript numbers: any comparison involving NaN is false;
-Infinity is below every other value; +Infinity is above every other value. -/
def JSNum.lt : JSNum → JSNum → Bool
  | JSNum.nan, _ => false
  | _, JSNum.nan => false
  | JSNum.negInf, JSNum.negInf => false
  | JSNum.negInf, _ => true
  | _, JSNum.negInf => false
  | JSNum.posInf, _ => false
  | JSNum.finite _, JSNum.posInf => true
  | JSNum.finite a, JSNum.finite b => decide (a < b)

/-- IEEE-754 `>` on JavaScript numbers. -/
def JSNum.gt (a b : JSNum) : Bool := JSNum.lt b a

/-- `value / 100` on JavaScript numbers (for the values `setVolume` can pass:
NaN and infinities are preserved, finite values divide exactly). -/
def JSNum.div100 : JSNum → JSNum
  | JSNum.nan => JSNum.nan
  | JSNum.posInf => JSNum.posInf
  | JSNum.negInf => JSNum.negInf
  | JSNum.finite q => JSNum.finite (q / 100)

/-- `setVolume` (BasicStreamDispatcher.ts lines 185-191):
`if (!this.audioResource || isNaN(value) || value < 0 || value > Infinity)
return false;` then `this.audioResource.volume.setVolumeLogarithmic(value/100);
return true;`.  Returns the boolean result and the argument passed to
`setVolumeLogarithmic` this call (none when the guard rejected and no call was
made, so all state is unchanged). -/
def StreamDispatcher.setVolume (audioResource : Option AudioResource)
    (value : JSNum) : Bool × Option JSNum :=
  if audioResource.isNone || value.isNaN || JSNum.lt value (JSNum.finite 0) ||
      JSNum.gt value JSNum.posInf then
    (false, none)
  else
    (true, some value.div100)

/-- No JavaScript number compares greater than +Infinity, so the guard's
`value > Infinity` test never fires. -/
theorem setVolume_guard_gt_posInf_dead (v : JSNum) :
    JSNum.gt v JSNum.posInf = false := by
  cases v <;> rfl

/-- C3: the claimed cases.  With a loaded resource, `setVolume` returns false
on NaN and on negative values (including -Infinity), returns true on 0 and 100
applying the curve at 0 and 1; with no resource it returns false for every
value and calls nothing.  However, contrary to the claim, `setVolume` with a
loaded resource ACCEPTS `Infinity` (returning true and applying the curve at
Infinity): the guard `value > Infinity` is never true for any number, so the
code never rejects a non-finite non-NaN value. -/
theorem C3_setVolume_infinity_accepted :
    (StreamDispatcher.setVolume (some ⟨0⟩) JSNum.posInf = (true, some JSNum.posInf)) ∧
    (StreamDispatcher.setVolume (some ⟨0⟩) JSNum.nan = (false, none)) ∧
    (StreamDispatcher.setVolume (some ⟨0⟩) (JSNum.finite (-1)) = (false, none)) ∧
    (StreamDispatcher.setVolume (some ⟨0⟩) JSNum.negInf = (false, none)) ∧
    (∀ q : ℚ, q < 0 →
      StreamDispatcher.setVolume (some ⟨0⟩) (JSNum.finite q) = (false, none)) ∧
    (StreamDispatcher.setVolume (some ⟨0⟩) (JSNum.finite 0) = (true, some (JSNum.finite 0))) ∧
    (StreamDispatcher.setVolume (some ⟨0⟩) (JSNum.finite 100) = (true, some (JSNum.finite 1))) ∧
    (∀ v : JSNum, StreamDispatcher.setVolume none v = (false, none)) := by
  refine ⟨by decide, by decide, by decide, by decide, ?_, ?_, ?_, ?_⟩
  · intro q hq
    simp [StreamDispatcher.setVolume, JSNum.lt, JSNum.gt, JSNum.isNaN, hq]
  · have h0 : (0 : ℚ) / 100 = 0 := by norm_num
    simp [StreamDispatcher.setVolume, JSNum.lt, JSNum.gt, JSNum.isNaN, JSNum.div100, h0]
  · have h1 : (100 : ℚ) / 100 = 1 := by norm_num
    simp [StreamDispatcher.setVolume, JSNum.lt, JSNum.gt, JSNum.isNaN, JSNum.div100, h1]
  · intro v
    simp [StreamDispatcher.setVolume]

/-- Modelled from the spec: the inline volume transformer's
`setVolumeLogarithmic(value)` of the external audio library stores
`value ^ 1.660964` as the raw volume scalar (the spec's "logarithmic volume
curve", "power 1.660964"), idealised over the reals. -/
noncomputable def VolumeTransformer.setVolumeLogarithmic (value : ℝ) : ℝ :=
  value ^ (1.660964 : ℝ)

/-- JavaScript `Math.round(x)`: the integer nearest to `x`, half-way cases
rounding up, i.e. `⌊x + 1/2⌋`. -/
noncomputable def jsRound (x : ℝ) : ℤ := ⌊x + 1 / 2⌋

/-- The `volume` getter (BasicStreamDispatcher.ts lines 197-201) applied to a
stored raw volume scalar:
`Math.round(Math.pow(currentVol, 1 / 1.660964) * 100)`. -/
noncomputable def StreamDispatcher.volumeGetter (currentVol : ℝ) : ℤ :=
  jsRound (currentVol ^ ((1 : ℝ) / 1.660964) * 100)

/-- Inverting the power-1.660964 curve recovers the set percentage: for
nonnegative v, reading back `(v/100) ^ 1.660964` through the getter yields
`round v`. -/
theorem volume_roundtrip_real (v : ℝ) (h : 0 ≤ v) :
    StreamDispatcher.volumeGetter (VolumeTransformer.setVolumeLogarithmic (v / 100)) =
      jsRound v := by
  unfold StreamDispatcher.volumeGetter VolumeTransformer.setVolumeLogarithmic
  have h100 : (0 : ℝ) ≤ v / 100 := by positivity
  have he : (1.660964 : ℝ) ≠ 0 := by norm_num
  have key : ((v / 100) ^ (1.660964 : ℝ)) ^ ((1 : ℝ) / 1.660964) = v / 100 := by
    rw [← Real.rpow_mul h100, mul_one_div, div_self he, Real.rpow_one]
  rw [key]
  have hv : v / 100 * 100 = v := by field_simp
  rw [hv]

/-- C8: the setter/getter round-trip through the logarithmic curve with
exponent 1.660964.  With a loaded resource and a nonnegative finite value v,
`setVolume(v)` succeeds and hands `v/100` to `setVolumeLogarithmic`, and the
`volume` getter applied to the resulting raw scalar returns `round v` (in
particular, within rounding tolerance of v). -/
theorem C8_volume_roundtrip (v : ℚ) (hv : 0 ≤ v) (res : AudioResource) :
    StreamDispatcher.setVolume (some res) (JSNum.finite v) =
      (true, some (JSNum.finite (v / 100))) ∧
    StreamDispatcher.volumeGetter
      (VolumeTransformer.setVolumeLogarithmic ((v : ℝ) / 100)) = jsRound (v : ℝ) := by
  constructor
  · simp [StreamDispatcher.setVolume, JSNum.lt, JSNum.gt, JSNum.isNaN, JSNum.div100,
      not_lt.mpr hv]
  · exact volume_roundtrip_real (v : ℝ) (by exact_mod_cast hv)

/-- C8 witness: setVolume(50) succeeds, stores the curve at 1/2, and the
getter reads back exactly 50. -/
theorem C8_volume_roundtrip_witness :
    (0 : ℚ) ≤ 50 ∧
    StreamDispatcher.setVolume (some ⟨0⟩) (JSNum.finite 50) =
      (true, some (JSNum.finite (1 / 2))) ∧
    StreamDispatcher.volumeGetter
      (VolumeTransformer.setVolumeLogarithmic ((50 : ℝ) / 100)) = 50 := by
  have h := C8_volume_roundtrip 50 (by norm_num) ⟨0⟩
  refine ⟨by norm_num, ?_, ?_⟩
  · have : (50 : ℚ) / 100 = 1 / 2 := by norm_num
    rw [← this]
    exact h.1
  · have h2 := h.2
    have hc : ((50 : ℚ) : ℝ) = (50 : ℝ) := by norm_num
    rw [hc] at h2
    rw [h2]
    unfold jsRound
    rw [Int.floor_eq_iff]
    constructor <;> norm_num

/-- Regular expressions over characters, with character classes given by a
predicate (enough to translate the two literal regexes of Util.js). -/
inductive Regex where
  | eps
  | cls (p : Char → Bool)
  | cat (r s : Regex)
  | alt (r s : Regex)
  | star (r : Regex)

/-- The empty regular language. -/
def Regex.none : Regex := Regex.cls (fun _ => false)

/-- Does the regex accept the empty string? -/
def Regex.nullable : Regex → Bool
  | Regex.eps => true
  | Regex.cls _ => false
  | Regex.cat r s => r.nullable && s.nullable
  | Regex.alt r s => r.nullable || s.nullable
  | Regex.star _ => true

/-- Brzozowski derivative of a regex by a character. -/
def Regex.deriv : Regex → Char → Regex
  | Regex.eps, _ => Regex.none
  | Regex.cls p, c => if p c then Regex.eps else Regex.none
  | Regex.cat r s, c =>
    if r.nullable then Regex.alt (Regex.cat (r.deriv c) s) (s.deriv c)
    else Regex.cat (r.deriv c) s
  | Regex.alt r s, c => Regex.alt (r.deriv c) (s.deriv c)
  | Regex.star r, c => Regex.cat (r.deriv c) (Regex.star r)

/-- Whole-string matching by iterated derivatives. -/
def Regex.accepts (r : Regex) (s : List Char) : Bool :=
  (s.foldl Regex.deriv r).nullable

/-- A character class matching any character (used only for search padding). -/
def Regex.anyChar : Regex := Regex.cls (fun _ => true)

/-- A single literal character. -/
def Regex.chr (c : Char) : Regex := Regex.cls (fun x => x == c)

/-- A literal string. -/
def Regex.strLit (s : String) : Regex :=
  s.data.foldr (fun c r => Regex.cat (Regex.chr c) r) Regex.eps

/-- `r?`. -/
def Regex.opt (r : Regex) : Regex := Regex.alt r Regex.eps

/-- `r+`. -/
def Regex.plus (r : Regex) : Regex := Regex.cat r (Regex.star r)

/-- Bounded repetition `r{n}`. -/
def Regex.rep (r : Regex) : Nat → Regex
  | 0 => Regex.eps
  | n + 1 => Regex.cat r (Regex.rep r n)

/-- JavaScript `.`: any character except a line terminator. -/
def jsDot (c : Char) : Bool :=
  !(c == '\n' || c == '\r' || c == Char.ofNat 0x2028 || c == Char.ofNat 0x2029)

/-- JavaScript `\w`: `[A-Za-z0-9_]`. -/
def jsWordChar (c : Char) : Bool := c.isAlpha || c.isDigit || c == '_'

/-- JavaScript `\s` (whitespace class), restricted to the code points this
codebase can meet in a URL query: ASCII whitespace plus NBSP and BOM. -/
def jsWhitespace (c : Char) : Bool :=
  c == ' ' || c == '\t' || c == '\n' || c == '\r' ||
    c == Char.ofNat 0x0B || c == Char.ofNat 0x0C ||
    c == Char.ofNat 0x00A0 || c == Char.ofNat 0xFEFF

/-- Unanchored search, as `RegExp.prototype.test` performs it: the pattern
matches some substring of `s`. -/
def Regex.searchTest (r : Regex) (s : String) : Bool :=
  Regex.accepts
    (Regex.cat (Regex.star Regex.anyChar) (Regex.cat r (Regex.star Regex.anyChar)))
    s.data

/-- Util.js line 5:
`/(?:youtube\.com\/(?:[^\/]+\/.+\/|(?:v|e(?:mbed)?)\/|.*[?&]v=)|youtu\.be\/)([^"&?\/\s]{11})/`. -/
def youtubeVideoRegex : Regex :=
  Regex.cat
    (Regex.alt
      (Regex.cat (Regex.strLit "youtube.com/")
        (Regex.alt
          (Regex.cat (Regex.plus (Regex.cls (fun c => !(c == '/'))))
            (Regex.cat (Regex.chr '/')
              (Regex.cat (Regex.plus (Regex.cls jsDot)) (Regex.chr '/'))))
          (Regex.alt
            (Regex.cat
              (Regex.alt (Regex.chr 'v')
                (Regex.cat (Regex.chr 'e') (Regex.opt (Regex.strLit "mbed"))))
              (Regex.chr '/'))
            (Regex.cat (Regex.star (Regex.cls jsDot))
              (Regex.cat (Regex.cls (fun c => c == '?' || c == '&'))
                (Regex.strLit "v="))))))
      (Regex.strLit "youtu.be/"))
    (Regex.rep
      (Regex.cls (fun c =>
        !(c == '"' || c == '&' || c == '?' || c == '/' || jsWhitespace c)))
      11)

/-- Util.js line 6:
`/https?:\/\/(?:embed\.|open\.)(?:spotify\.com\/)(?:track\/|\?uri=spotify:track:)((\w|-){22})/`. -/
def spotifySongRegex : Regex :=
  Regex.cat (Regex.strLit "http")
    (Regex.cat (Regex.opt (Regex.chr 's'))
      (Regex.cat (Regex.strLit "://")
        (Regex.cat (Regex.alt (Regex.strLit "embed.") (Regex.strLit "open."))
          (Regex.cat (Regex.strLit "spotify.com/")
            (Regex.cat
              (Regex.alt (Regex.strLit "track/") (Regex.strLit "?uri=spotify:track:"))
              (Regex.rep (Regex.cls (fun c => jsWordChar c || c == '-')) 22))))))

/-- A JavaScript RegExp object: the compiled pattern plus its one piece of
mutable state, `lastIndex`.  Neither regex literal in Util.js carries the
global or sticky flag. -/
structure JSRegExp where
  source : Regex
  lastIndex : Nat

/-- `RegExp.prototype.test` for a regex without the global/sticky flags: the
search always starts at the beginning of the input and `lastIndex` is neither
read nor written (ECMA-262 RegExpBuiltinExec steps 4-8). -/
def JSRegExp.test (re : JSRegExp) (s : String) : Bool × JSRegExp :=
  (re.source.searchTest s, re)

/-- The observable mutable state of the Util.js module: the `lastIndex` slots
of its two regex objects (its only mutable bindings). -/
structure UtilState where
  spotifyLastIndex : Nat
  youtubeLastIndex : Nat

/-- Modelled from the spec: `soundcloud-scraper`'s `validateURL`, which
Util.js line 18 calls and which is not part of this repository.  The spec
fixes only that the helper is a pure predicate of the caller-supplied query
string; the concrete URL shape (a soundcloud.com link) is representative, and
C10 depends only on the function's purity, not its pattern. -/
def scraperValidateURL (query : String) : Bool :=
  Regex.searchTest (Regex.strLit "soundcloud.com/") query

/-- Modelled from the spec: `ytpl`'s `validateURL`, which Util.js line 26
calls and which is not part of this repository.  The spec fixes only that the
helper is a pure predicate of the caller-supplied query string; the concrete
URL shape (a playlist-id parameter) is representative, and C10 depends only on
the function's purity, not its pattern. -/
def ytplValidateURL (query : String) : Bool :=
  Regex.searchTest (Regex.strLit "list=") query

/-- `Util.isSoundcloudLink` (Util.js lines 17-19). -/
def Util.isSoundcloudLink (st : UtilState) (query : String) : Bool × UtilState :=
  (scraperValidateURL query, st)

/-- `Util.isSpotifyLink` (Util.js lines 21-23): `spotifySongRegex.test(query)`. -/
def Util.isSpotifyLink (st : UtilState) (query : String) : Bool × UtilState :=
  let out := JSRegExp.test ⟨spotifySongRegex, st.spotifyLastIndex⟩ query
  (out.1, { st with spotifyLastIndex := out.2.lastIndex })

/-- `Util.isYTPlaylistLink` (Util.js lines 25-27). -/
def Util.isYTPlaylistLink (st : UtilState) (query : String) : Bool × UtilState :=
  (ytplValidateURL query, st)

/-- `Util.isYTVideoLink` (Util.js lines 29-31): `youtubeVideoRegex.test(query)`. -/
def Util.isYTVideoLink (st : UtilState) (query : String) : Bool × UtilState :=
  let out := JSRegExp.test ⟨youtubeVideoRegex, st.youtubeLastIndex⟩ query
  (out.1, { st with youtubeLastIndex := out.2.lastIndex })

/-- C10: each of the four URL-classification helpers is a pure deterministic
predicate of its string argument: every invocation leaves the module state
(the regex objects' `lastIndex` slots, the only observable mutable state)
exactly as it was, and the boolean result does not depend on that state, so
two invocations on the same string always agree. -/
theorem C10_url_helpers_pure (st st₂ : UtilState) (q : String) :
    (Util.isSoundcloudLink st q).2 = st ∧
    (Util.isSpotifyLink st q).2 = st ∧
    (Util.isYTPlaylistLink st q).2 = st ∧
    (Util.isYTVideoLink st q).2 = st ∧
    (Util.isSoundcloudLink st q).1 = (Util.isSoundcloudLink st₂ q).1 ∧
    (Util.isSpotifyLink st q).1 = (Util.isSpotifyLink st₂ q).1 ∧
    (Util.isYTPlaylistLink st q).1 = (Util.isYTPlaylistLink st₂ q).1 ∧
    (Util.isYTVideoLink st q).1 = (Util.isYTVideoLink st₂ q).1 :=
  ⟨rfl, rfl, rfl, rfl, rfl, rfl, rfl, rfl⟩
